import Mathlib

/-!
Verification development for the Milestara milestone-governance repository.

Two layers of the source are embedded:

* the browser-local demo layer (`milestoneContract.js`): governance token
  balance, per-milestone yes/no tallies and a locked BCH amount, persisted in
  `localStorage`; JS numbers are modelled as rationals and `localStorage`
  slots as `Option (Option _)` (outer `none` = item absent, inner `none` =
  the stored string fails to parse).
* the Supabase layer (`db/votes.js`, `db/milestones.js`, `db/transactions.js`):
  a vote table with a UNIQUE(milestone_id, voter_id) constraint, a milestone
  status column and a transaction ledger; errors thrown by the JS functions
  become `Except` errors, and partially committed writes are kept by
  threading the store state explicitly.
-/

namespace Milestara

/-! ## Local-storage layer (milestoneContract.js) -/

/-- A per-milestone vote tally as stored under the `milestara_votes` key:
`{ yes, no }` weights. -/
structure MTally where
  yes : ℚ
  no : ℚ
deriving DecidableEq

/-- A JSON-object map from milestone id to tally, as an association list. -/
def VotesMap := List (String × MTally)

instance : DecidableEq VotesMap := inferInstanceAs (DecidableEq (List (String × MTally)))

/-- Object property read `m[k]`. -/
def getKey (m : VotesMap) (k : String) : Option MTally :=
  match m.find? (fun p => decide (p.1 = k)) with
  | some p => some p.2
  | none => none

/-- Object property write `m[k] = v`. -/
def setKey (m : VotesMap) (k : String) (v : MTally) : VotesMap :=
  (k, v) :: m.filter (fun p => !(decide (p.1 = k)))

/-- The `localStorage` slots used by milestoneContract.js. Outer `none`:
`getItem` returned null (or a falsy string); inner `none`: `JSON.parse`
threw, so `loadFromStorage` falls back to its default. -/
structure RawStorage where
  tokenBalance : Option (Option ℚ)
  votes : Option (Option VotesMap)
  lockedAmount : Option (Option ℚ)
  tokenCategory : Option (Option String)

/-- `loadFromStorage(key, defaultValue)`: returns the parsed item, or the
default when the item is absent or parsing fails. -/
def loadFromStorage {α : Type} (slot : Option (Option α)) (dflt : α) : α :=
  match slot with
  | none => dflt
  | some none => dflt
  | some (some v) => v

/-- JS `Math.round`: round half toward positive infinity. -/
def jsRound (q : ℚ) : ℤ := ⌊q + 1/2⌋

/-- The approval decision used at every tally site in the source:
`total > 0 && yes / total > 0.5`. -/
def approvedCalc (yes no : ℚ) : Bool :=
  decide (0 < yes + no) && decide (1/2 < yes / (yes + no))

/-- `total > 0 ? Math.round((yes / total) * 100) : 0`. -/
def yesPercentCalc (yes no : ℚ) : ℤ :=
  if 0 < yes + no then jsRound (yes / (yes + no) * 100) else 0

inductive CastErr where
  | insufficientBalance
deriving DecidableEq

/-- The record returned by a successful `castVote`. -/
structure CastResult where
  votes : MTally
  tokenBalance : ℚ
  isApproved : Bool
  yesPercent : ℤ
deriving DecidableEq

/-- `castVote(milestoneId, voteType, tokensToUse)` from milestoneContract.js:
check the stored balance, deduct the spent tokens, add them to the yes or no
side of the milestone tally, and recompute approval. The error path throws
before any `saveToStorage`, so it returns the input storage unchanged. -/
def castVote (st : RawStorage) (milestoneId : String) (voteYes : Bool)
    (tokensToUse : ℚ) : Except CastErr CastResult × RawStorage :=
  let currentBalance := loadFromStorage st.tokenBalance 0
  if currentBalance < tokensToUse then
    (.error .insufficientBalance, st)
  else
    let newBalance := currentBalance - tokensToUse
    let st1 := { st with tokenBalance := some (some newBalance) }
    let allVotes := loadFromStorage st1.votes []
    let prevVotes := (getKey allVotes milestoneId).getD ⟨0, 0⟩
    let updatedVotes :=
      if voteYes then { prevVotes with yes := prevVotes.yes + tokensToUse }
      else { prevVotes with no := prevVotes.no + tokensToUse }
    let st2 := { st1 with votes := some (some (setKey allVotes milestoneId updatedVotes)) }
    (.ok { votes := updatedVotes
           tokenBalance := newBalance
           isApproved := approvedCalc updatedVotes.yes updatedVotes.no
           yesPercent := yesPercentCalc updatedVotes.yes updatedVotes.no }, st2)

inductive FundErr where
  | invalidAmount
deriving DecidableEq

/-- The record returned by a successful `fundMilestoneContract`. -/
structure FundResult where
  tokenAmount : ℤ
  newTokenBalance : ℚ
  simulatedTxId : String
deriving DecidableEq

/-- The governance tokens minted for a contribution:
`Math.floor((amountBch / 0.001) * TOKENS_PER_UNIT)` with `TOKENS_PER_UNIT = 100`. -/
def mintedTokens (amountBch : ℚ) : ℤ := ⌊amountBch / (1/1000) * 100⌋

/-- `fundMilestoneContract(wallet, amountBch, projectAddr)`: compute the
token amount, reject contributions that mint less than one token, then add
the contribution to the locked amount and the minted tokens to the balance.
The on-chain mint is external and never aborts the call (its failure is
caught and simulated), so its transaction id is a parameter. -/
def fundMilestoneContract (st : RawStorage) (amountBch : ℚ) (mintTxId : String) :
    Except FundErr FundResult × RawStorage :=
  let tokenAmount := mintedTokens amountBch
  if tokenAmount < 1 then
    (.error .invalidAmount, st)
  else
    let prevLocked := loadFromStorage st.lockedAmount 0
    let st1 := { st with lockedAmount := some (some (prevLocked + amountBch))
                         tokenCategory := some (some mintTxId) }
    let prevTokens := loadFromStorage st1.tokenBalance 0
    let newTokenBalance := prevTokens + (tokenAmount : ℚ)
    let st2 := { st1 with tokenBalance := some (some newTokenBalance) }
    (.ok { tokenAmount := tokenAmount
           newTokenBalance := newTokenBalance
           simulatedTxId := mintTxId }, st2)

inductive ReleaseErr where
  | insufficientLockedFunds
  | externalSendError (msg : String)
deriving DecidableEq

/-- `releaseMilestoneFunds(wallet, amountBch, projectAddr)`: reject when the
amount exceeds the tracked locked balance plus the 0.0001 fee tolerance,
otherwise send the BCH and lower the locked amount (floored at 0). The
outcome of the external `wallet.send` is a parameter; the third component of
the result lists the sends that were attempted, so that "no funds are sent"
on an error path is expressible. -/
def releaseMilestoneFunds (st : RawStorage) (amountBch : ℚ) (projectAddr : String)
    (sendResult : Except String String) :
    Except ReleaseErr String × RawStorage × List (String × ℚ) :=
  let locked := loadFromStorage st.lockedAmount 0
  if locked + 1/10000 < amountBch then
    (.error .insufficientLockedFunds, st, [])
  else
    match sendResult with
    | .error e => (.error (.externalSendError e), st, [(projectAddr, amountBch)])
    | .ok txId =>
        (.ok txId,
         { st with lockedAmount := some (some (max 0 (locked - amountBch))) },
         [(projectAddr, amountBch)])

/-- `getTokenBalance()`. -/
def getTokenBalance (st : RawStorage) : ℚ :=
  loadFromStorage st.tokenBalance 0

/-- `getLockedAmount()`. -/
def getLockedAmount (st : RawStorage) : ℚ :=
  loadFromStorage st.lockedAmount 0

/-- `getMilestoneVotes(milestoneId)`: the stored tally, or `{yes: 0, no: 0}`. -/
def getMilestoneVotes (st : RawStorage) (milestoneId : String) : MTally :=
  (getKey (loadFromStorage st.votes []) milestoneId).getD ⟨0, 0⟩

/-! ## Supabase layer (db/milestones.js, db/votes.js, db/transactions.js) -/

/-- A row of the `votes` table. -/
structure VoteRow where
  milestoneId : String
  voterId : String
  vote : Bool
  votingPower : ℤ
deriving DecidableEq

/-- The store state the voting engine touches: the `votes` table and the
`status` column of the `milestones` table. -/
structure DB where
  votes : List VoteRow
  milestoneStatus : String → String

/-- The `UNIQUE(milestone_id, voter_id)` constraint check: does a vote row
for this pair already exist? An insert into `votes` fails with error code
23505 exactly when this is true. -/
def hasVotePair (votes : List VoteRow) (mid vid : String) : Bool :=
  votes.any (fun v => decide (v.milestoneId = mid) && decide (v.voterId = vid))

/-- `yesWeight`: votes of the milestone, filtered to `vote === true`, summed
over `voting_power`. -/
def yesWeightOf (votes : List VoteRow) (mid : String) : ℤ :=
  ((((votes.filter (fun v => decide (v.milestoneId = mid))).filter
      (fun v => v.vote)).map VoteRow.votingPower)).sum

/-- `noWeight`: votes of the milestone, filtered to `vote === false`, summed
over `voting_power`. -/
def noWeightOf (votes : List VoteRow) (mid : String) : ℤ :=
  ((((votes.filter (fun v => decide (v.milestoneId = mid))).filter
      (fun v => !v.vote)).map VoteRow.votingPower)).sum

inductive StatusErr where
  | missingMilestoneId
  | invalidStatus
deriving DecidableEq

/-- The allowed values of the milestone `status` column. -/
def validStatuses : List String :=
  ["pending", "voting", "approved", "released", "rejected"]

/-- `updateMilestoneStatus(milestoneId, status)` from db/milestones.js:
validate the arguments, then overwrite the status of that milestone. -/
def updateMilestoneStatus (db : DB) (milestoneId status : String) :
    Except StatusErr Unit × DB :=
  if milestoneId = "" then
    (.error .missingMilestoneId, db)
  else if validStatuses.contains status = false then
    (.error .invalidStatus, db)
  else
    (.ok (),
     { db with milestoneStatus :=
         fun i => if i = milestoneId then status else db.milestoneStatus i })

inductive VoteErr where
  | missingMilestoneId
  | missingVoterId
  | invalidVotingPower
  | duplicateVote
  | statusUpdateError (e : StatusErr)
deriving DecidableEq

/-- The record returned by a successful `voteOnMilestone`. -/
structure VoteResult where
  voteRecord : VoteRow
  milestoneApproved : Bool
  yesPercent : ℤ
  yesWeight : ℤ
  noWeight : ℤ
  total : ℤ
deriving DecidableEq

/-- `voteOnMilestone({milestoneId, voterId, vote, votingPower})` from
db/votes.js: validate, insert the vote row (the UNIQUE constraint makes the
insert fail on a duplicate (milestoneId, voterId) pair, surfaced as
`duplicateVote`), recompute the tallies from all rows of the milestone, and
auto-update the milestone status: `approved` when the strict majority is
reached, otherwise `voting` once any vote exists. Thrown errors leave
whatever was already written, so the state is threaded through. -/
def voteOnMilestone (db : DB) (milestoneId voterId : String) (vote : Bool)
    (votingPower : ℤ) : Except VoteErr VoteResult × DB :=
  if milestoneId = "" then (.error .missingMilestoneId, db)
  else if voterId = "" then (.error .missingVoterId, db)
  else if votingPower < 1 then (.error .invalidVotingPower, db)
  else if hasVotePair db.votes milestoneId voterId then (.error .duplicateVote, db)
  else
    let newRow : VoteRow := ⟨milestoneId, voterId, vote, votingPower⟩
    let db1 : DB := { db with votes := db.votes ++ [newRow] }
    let yesWeight := yesWeightOf db1.votes milestoneId
    let noWeight := noWeightOf db1.votes milestoneId
    let total := yesWeight + noWeight
    let yesPercent := yesPercentCalc (yesWeight : ℚ) (noWeight : ℚ)
    let milestoneApproved := approvedCalc (yesWeight : ℚ) (noWeight : ℚ)
    let result : VoteResult :=
      { voteRecord := newRow, milestoneApproved := milestoneApproved
        yesPercent := yesPercent, yesWeight := yesWeight
        noWeight := noWeight, total := total }
    if milestoneApproved then
      match updateMilestoneStatus db1 milestoneId "approved" with
      | (.error e, db2) => (.error (.statusUpdateError e), db2)
      | (.ok _, db2) => (.ok result, db2)
    else if 0 < total then
      match updateMilestoneStatus db1 milestoneId "voting" with
      | (.error e, db2) => (.error (.statusUpdateError e), db2)
      | (.ok _, db2) => (.ok result, db2)
    else
      (.ok result, db1)

/-- `hasUserVoted(milestoneId, voterId)` from db/votes.js: returns `false`
when an id is missing, `false` when the count query errors (`readErr` is the
external store failure), otherwise whether a matching row exists. It issues
only a read, so the store comes back unchanged. -/
def hasUserVoted (db : DB) (readErr : Bool) (milestoneId voterId : String) :
    Bool × DB :=
  if milestoneId = "" ∨ voterId = "" then (false, db)
  else if readErr then (false, db)
  else
    (decide (0 < (db.votes.filter (fun v =>
        decide (v.milestoneId = milestoneId) && decide (v.voterId = voterId))).length),
     db)

/-- The combined state the application sees: the Supabase store plus the
browser-local storage. -/
structure SysState where
  db : DB
  loc : RawStorage

/-- `castVoteDB({milestoneId, vote, votingPower})` from hooks/useSupabase.js:
delegates to `voteOnMilestone` with the logged-in voter id; it touches no
local storage. -/
def castVoteDB (sys : SysState) (milestoneId voterId : String) (vote : Bool)
    (votingPower : ℤ) : Except VoteErr VoteResult × SysState :=
  ((voteOnMilestone sys.db milestoneId voterId vote votingPower).1,
   { db := (voteOnMilestone sys.db milestoneId voterId vote votingPower).2
     loc := sys.loc })

/-- "At most one vote per (milestone, voter) pair" over the vote table. -/
def onePerPair (votes : List VoteRow) : Prop :=
  votes.Pairwise (fun a b => ¬(a.milestoneId = b.milestoneId ∧ a.voterId = b.voterId))

/-! ### Transactions (db/transactions.js) -/

inductive TxType where
  | funding
  | release
  | refund
deriving DecidableEq

/-- A row of the `transactions` table. -/
structure Txn where
  projectId : String
  txHash : String
  amount : ℚ
  type : TxType
deriving DecidableEq

inductive TxErr where
  | missingProjectId
deriving DecidableEq

/-- `parseFloat(total.toFixed(8))`: round to 8 decimal places. -/
def round8 (q : ℚ) : ℚ := (⌊q * 100000000 + 1/2⌋ : ℚ) / 100000000

/-- `getProjectFundingTotal(projectId)` from db/transactions.js: select the
`funding`-type transactions of the project, sum their amounts, and round the
total to 8 decimals. -/
def getProjectFundingTotal (txs : List Txn) (projectId : String) :
    Except TxErr ℚ :=
  if projectId = "" then .error .missingProjectId
  else
    .ok (round8 (((txs.filter (fun t =>
        decide (t.projectId = projectId) && decide (t.type = TxType.funding))).map
        Txn.amount).sum))

/-- Modelled from the spec: `fundingTotal(projectId)` is "the sum of amounts
of funding-type Transactions for the project". Stated in the words of the spec,
to be compared with `getProjectFundingTotal` from the source. -/
def specFundingSum (txs : List Txn) (projectId : String) : ℚ :=
  ((txs.filter (fun t =>
      decide (t.projectId = projectId ∧ t.type = TxType.funding))).map
      Txn.amount).sum

/-! ## Concrete states used by witnesses and counterexamples -/

/-- Fresh local storage: nothing stored yet. -/
def stEmpty : RawStorage := ⟨none, none, none, none⟩

/-- Local storage of a voter holding 50 governance tokens. -/
def st50 : RawStorage := ⟨some (some 50), none, none, none⟩

/-- Local storage of a voter holding 10 governance tokens. -/
def stBal10 : RawStorage := ⟨some (some 10), none, none, none⟩

/-- Local storage with 1 BCH tracked as locked. -/
def stLocked1 : RawStorage := ⟨none, none, some (some 1), none⟩

/-- Store with no votes yet, milestone statuses all `pending`. -/
def db0C : DB := { votes := [], milestoneStatus := fun _ => "pending" }

/-- Store after a single 1-weight YES vote on milestone `m1` by `alice`
(the vote moved `m1` to `approved`). -/
def db1C : DB :=
  { votes := [⟨"m1", "alice", true, 1⟩]
    milestoneStatus := fun i => if i = "m1" then "approved" else "pending" }

/-- Store with no votes but milestone `m1` in `voting` status. -/
def dbVotingC : DB := { votes := [], milestoneStatus := fun _ => "voting" }

/-- Store that already holds a vote by `v1` on `m1`. -/
def dbDup : DB := { votes := [⟨"m1", "v1", true, 2⟩], milestoneStatus := fun _ => "voting" }

/-- Combined state with an existing (m1, v1) vote and a 50-token balance. -/
def sysDup : SysState := { db := dbDup, loc := st50 }

/-- Combined state with no votes and a 10-token balance. -/
def sysFresh : SysState := { db := db0C, loc := stBal10 }

/-- Store after a 60-weight YES vote on `m1` by `a`. -/
def dbP : DB := { votes := [⟨"m1", "a", true, 60⟩], milestoneStatus := fun _ => "voting" }

/-- The result of a 40-weight NO vote on `m1` cast after the 60-weight YES
vote of `dbP` (Scenario B of the spec). -/
def rB5 : VoteResult := ⟨⟨"m1", "b", false, 40⟩, true, 60, 60, 40, 100⟩

/-- A small transaction ledger over two projects. -/
def txsC : List Txn :=
  [⟨"p1", "h1", 1/1000, .funding⟩, ⟨"p1", "h2", 2/1000, .release⟩,
   ⟨"p2", "h3", 5/1000, .funding⟩, ⟨"p1", "h4", 3/1000, .funding⟩]

/-! ## Helper lemmas -/

/-- Splitting the vote weights of a list into its yes part and its no part. -/
lemma filter_vote_sum_split (l : List VoteRow) :
    ((l.filter (fun v => v.vote)).map VoteRow.votingPower).sum +
      ((l.filter (fun v => !v.vote)).map VoteRow.votingPower).sum =
      (l.map VoteRow.votingPower).sum := by
  induction l with
  | nil => simp
  | cons x xs ih =>
      cases hv : x.vote <;> simp [List.filter_cons, hv] <;> omega

/-- The two tally sides add up to the total weight of the votes of the milestone. -/
lemma yes_add_no_eq_total (l : List VoteRow) (mid : String) :
    yesWeightOf l mid + noWeightOf l mid =
      ((l.filter (fun v => decide (v.milestoneId = mid))).map VoteRow.votingPower).sum := by
  unfold yesWeightOf noWeightOf
  exact filter_vote_sum_split _

/-- If every stored vote has weight at least 1 and some vote of the milestone
is in the list, the total weight of that milestone is positive. -/
lemma total_pos_of_mem (l : List VoteRow) (mid : String) (x : VoteRow)
    (hW : ∀ v ∈ l, 1 ≤ v.votingPower) (hx : x ∈ l) (hxm : x.milestoneId = mid) :
    0 < yesWeightOf l mid + noWeightOf l mid := by
  rw [yes_add_no_eq_total]
  have hxf : x ∈ l.filter (fun v => decide (v.milestoneId = mid)) := by
    simp [List.mem_filter, hx, hxm]
  have hmem : x.votingPower ∈
      (l.filter (fun v => decide (v.milestoneId = mid))).map VoteRow.votingPower :=
    List.mem_map_of_mem _ hxf
  have hle : x.votingPower ≤
      ((l.filter (fun v => decide (v.milestoneId = mid))).map VoteRow.votingPower).sum := by
    refine List.single_le_sum ?_ _ hmem
    intro y hy
    simp only [List.mem_map, List.mem_filter] at hy
    obtain ⟨v, ⟨hvl, _⟩, rfl⟩ := hy
    exact le_trans zero_le_one (hW v hvl)
  have := hW x hx
  omega

lemma contains_approved : validStatuses.contains "approved" = true := by
  simp [validStatuses]

lemma contains_voting : validStatuses.contains "voting" = true := by
  simp [validStatuses]

/-- `updateMilestoneStatus` on a nonempty id and a valid status overwrites
the status of that milestone and succeeds. -/
lemma updateMilestoneStatus_ok (db : DB) (mid s : String) (hmid : ¬ mid = "")
    (hs : validStatuses.contains s = true) :
    updateMilestoneStatus db mid s =
      (.ok (),
       { db with milestoneStatus := fun i => if i = mid then s else db.milestoneStatus i }) := by
  have hs2 : s ∈ validStatuses := by simpa using hs
  simp [updateMilestoneStatus, hmid, hs2]

/-- Behaviour of `voteOnMilestone` when every validation passes: the vote row
is appended, the returned record carries the recomputed tallies, and the
milestone status is overwritten according to the fresh tally. -/
lemma voteOnMilestone_success_spec (db : DB) (mid vid : String) (b : Bool) (w : ℤ)
    (hmid : ¬ mid = "") (hvid : ¬ vid = "") (hw : ¬ w < 1)
    (hdup : hasVotePair db.votes mid vid = false) :
    (voteOnMilestone db mid vid b w).1 =
      .ok { voteRecord := ⟨mid, vid, b, w⟩
            milestoneApproved :=
              approvedCalc (yesWeightOf (db.votes ++ [⟨mid, vid, b, w⟩]) mid : ℚ)
                (noWeightOf (db.votes ++ [⟨mid, vid, b, w⟩]) mid : ℚ)
            yesPercent :=
              yesPercentCalc (yesWeightOf (db.votes ++ [⟨mid, vid, b, w⟩]) mid : ℚ)
                (noWeightOf (db.votes ++ [⟨mid, vid, b, w⟩]) mid : ℚ)
            yesWeight := yesWeightOf (db.votes ++ [⟨mid, vid, b, w⟩]) mid
            noWeight := noWeightOf (db.votes ++ [⟨mid, vid, b, w⟩]) mid
            total := yesWeightOf (db.votes ++ [⟨mid, vid, b, w⟩]) mid +
              noWeightOf (db.votes ++ [⟨mid, vid, b, w⟩]) mid } ∧
    (voteOnMilestone db mid vid b w).2.votes = db.votes ++ [⟨mid, vid, b, w⟩] ∧
    (approvedCalc (yesWeightOf (db.votes ++ [⟨mid, vid, b, w⟩]) mid : ℚ)
        (noWeightOf (db.votes ++ [⟨mid, vid, b, w⟩]) mid : ℚ) = true →
      (voteOnMilestone db mid vid b w).2.milestoneStatus mid = "approved") ∧
    (approvedCalc (yesWeightOf (db.votes ++ [⟨mid, vid, b, w⟩]) mid : ℚ)
        (noWeightOf (db.votes ++ [⟨mid, vid, b, w⟩]) mid : ℚ) = false →
      0 < yesWeightOf (db.votes ++ [⟨mid, vid, b, w⟩]) mid +
          noWeightOf (db.votes ++ [⟨mid, vid, b, w⟩]) mid →
      (voteOnMilestone db mid vid b w).2.milestoneStatus mid = "voting") := by
  have hup1 := updateMilestoneStatus_ok
    { db with votes := db.votes ++ [⟨mid, vid, b, w⟩] } mid "approved" hmid contains_approved
  have hup2 := updateMilestoneStatus_ok
    { db with votes := db.votes ++ [⟨mid, vid, b, w⟩] } mid "voting" hmid contains_voting
  by_cases happ : approvedCalc (yesWeightOf (db.votes ++ [⟨mid, vid, b, w⟩]) mid : ℚ)
      (noWeightOf (db.votes ++ [⟨mid, vid, b, w⟩]) mid : ℚ)
  · simp [voteOnMilestone, hmid, hvid, hw, hdup, happ, hup1]
  · by_cases hpos : 0 < yesWeightOf (db.votes ++ [⟨mid, vid, b, w⟩]) mid +
        noWeightOf (db.votes ++ [⟨mid, vid, b, w⟩]) mid
    · simp [voteOnMilestone, hmid, hvid, hw, hdup, happ, hpos, hup2]
    · simp [voteOnMilestone, hmid, hvid, hw, hdup, happ, hpos]

/-- A successful `voteOnMilestone` implies every validation passed. -/
lemma voteOnMilestone_ok_guards (db : DB) (mid vid : String) (b : Bool) (w : ℤ)
    (r : VoteResult) (hok : (voteOnMilestone db mid vid b w).1 = .ok r) :
    ¬ mid = "" ∧ ¬ vid = "" ∧ ¬ w < 1 ∧ hasVotePair db.votes mid vid = false := by
  by_cases h1 : mid = ""
  · simp [voteOnMilestone, h1] at hok
  by_cases h2 : vid = ""
  · simp [voteOnMilestone, h1, h2] at hok
  by_cases h3 : w < 1
  · simp [voteOnMilestone, h1, h2, h3] at hok
  by_cases h4 : hasVotePair db.votes mid vid
  · simp [voteOnMilestone, h1, h2, h3, h4] at hok
  · exact ⟨h1, h2, h3, Bool.not_eq_true _ ▸ (by simpa using h4)⟩

/-- A sum of multiples of `10 ^ (-8)` is a multiple of `10 ^ (-8)`. -/
lemma sum_dyadic (l : List ℚ) (h : ∀ x ∈ l, ∃ k : ℤ, x = (k : ℚ) / 100000000) :
    ∃ k : ℤ, l.sum = (k : ℚ) / 100000000 := by
  induction l with
  | nil => exact ⟨0, by simp⟩
  | cons x xs ih =>
      obtain ⟨k1, hk1⟩ := h x (List.mem_cons_self x xs)
      obtain ⟨k2, hk2⟩ := ih (fun y hy => h y (List.mem_cons_of_mem _ hy))
      refine ⟨k1 + k2, ?_⟩
      rw [List.sum_cons, hk1, hk2]
      push_cast
      ring

/-- Rounding to 8 decimals is the identity on multiples of `10 ^ (-8)`. -/
lemma round8_dyadic (k : ℤ) :
    round8 ((k : ℚ) / 100000000) = (k : ℚ) / 100000000 := by
  unfold round8
  have h1 : ((k : ℚ) / 100000000) * 100000000 = (k : ℚ) := by
    norm_num
  rw [h1]
  have h2 : (⌊(k : ℚ) + 1/2⌋ : ℤ) = k := by
    rw [add_comm, Int.floor_add_int]
    norm_num
  rw [h2]

/-! ## Claim theorems -/

/-- C7: a `castVote` with a weight strictly greater than the stored
governance token balance fails with `InsufficientBalance` and leaves the
whole storage unchanged (the check precedes every write); a `castVote` with
weight at most the balance succeeds and stores exactly `balance - weight`. -/
theorem C7_spend_balance_check (st : RawStorage) (mid : String) (b : Bool) (w : ℚ) :
    (loadFromStorage st.tokenBalance 0 < w →
      castVote st mid b w = (.error .insufficientBalance, st)) ∧
    (w ≤ loadFromStorage st.tokenBalance 0 →
      (∃ r : CastResult, (castVote st mid b w).1 = .ok r) ∧
      getTokenBalance (castVote st mid b w).2 =
        loadFromStorage st.tokenBalance 0 - w) := by
  constructor
  · intro h
    simp [castVote, h]
  · intro h
    have h2 : ¬ loadFromStorage st.tokenBalance 0 < w := not_lt.mpr h
    constructor
    · rcases hr : (castVote st mid b w).1 with e | r
      · simp [castVote, if_neg h2] at hr
      · exact ⟨r, rfl⟩
    · simp only [castVote, if_neg h2]
      simp [getTokenBalance, loadFromStorage]

/-- C7 witness: Scenario C of the spec — a voter holding 50 tokens trying to
cast 60 fails with `InsufficientBalance` and the storage (hence the balance)
is unchanged; casting 30 leaves exactly 20. -/
theorem C7_witness :
    castVote st50 "m1" true 60 = (.error .insufficientBalance, st50) ∧
    getTokenBalance (castVote st50 "m1" true 30).2 = 20 := by
  constructor
  · exact (C7_spend_balance_check st50 "m1" true 60).1
      (by norm_num [st50, loadFromStorage])
  · have h := ((C7_spend_balance_check st50 "m1" true 30).2
      (by norm_num [st50, loadFromStorage])).2
    rw [h]
    norm_num [st50, loadFromStorage]

/-- C9: `hasUserVoted` never mutates the store, returns `false` when either
id is missing, and returns `false` (instead of failing) when the count query
errors. -/
theorem C9_hasVoted_safe (db : DB) (e : Bool) (mid vid : String) :
    (hasUserVoted db e mid vid).2 = db ∧
    (mid = "" ∨ vid = "" → (hasUserVoted db e mid vid).1 = false) ∧
    (e = true → (hasUserVoted db e mid vid).1 = false) := by
  refine ⟨?_, ?_, ?_⟩
  · unfold hasUserVoted
    split_ifs <;> rfl
  · intro h
    simp [hasUserVoted, h]
  · intro h
    subst h
    unfold hasUserVoted
    split_ifs <;> simp_all

/-- C9 witness: on a store that does hold a (m1, v1) vote, a call with a
missing voter id returns `false`, a call under a store read error returns
`false`, and neither changes the store. -/
theorem C9_witness :
    (hasUserVoted dbDup false "m1" "").1 = false ∧
    (hasUserVoted dbDup true "m1" "v1").1 = false ∧
    (hasUserVoted dbDup true "m1" "v1").2 = dbDup := by
  refine ⟨(C9_hasVoted_safe dbDup false "m1" "").2.1 (Or.inr rfl),
    (C9_hasVoted_safe dbDup true "m1" "v1").2.2 rfl,
    (C9_hasVoted_safe dbDup true "m1" "v1").1⟩

/-- C10: the read-only getters degrade to safe defaults — `getTokenBalance`
and `getLockedAmount` return 0 when the storage item is absent or fails to
parse, and `getMilestoneVotes` returns the zero tally for a milestone with
no recorded votes. All three are total functions. -/
theorem C10_getters_safe_defaults (st : RawStorage) (mid : String) :
    (st.tokenBalance = none ∨ st.tokenBalance = some none →
      getTokenBalance st = 0) ∧
    (st.lockedAmount = none ∨ st.lockedAmount = some none →
      getLockedAmount st = 0) ∧
    (getKey (loadFromStorage st.votes []) mid = none →
      getMilestoneVotes st mid = ⟨0, 0⟩) := by
  refine ⟨?_, ?_, ?_⟩
  · rintro (h | h) <;> simp [getTokenBalance, loadFromStorage, h]
  · rintro (h | h) <;> simp [getLockedAmount, loadFromStorage, h]
  · intro h
    simp [getMilestoneVotes, h]

/-- C5: the approval decision at every tally site is
`approved = (total > 0 AND yes / total > 0.5)` with `total = yes + no`, so a
tie never approves; `yesPercent = round(yes / total * 100)` when total > 0
and 0 otherwise. On success both `voteOnMilestone` (whose tallies are
recomputed from the stored votes of the milestone) and the local `castVote`
return exactly these values. -/
theorem C5_approval_decision :
    (∀ w : ℚ, approvedCalc w w = false) ∧
    (∀ (db : DB) (mid vid : String) (b : Bool) (w : ℤ) (r : VoteResult),
      (voteOnMilestone db mid vid b w).1 = .ok r →
      r.milestoneApproved = approvedCalc (r.yesWeight : ℚ) (r.noWeight : ℚ) ∧
      r.total = r.yesWeight + r.noWeight ∧
      r.yesPercent = yesPercentCalc (r.yesWeight : ℚ) (r.noWeight : ℚ) ∧
      r.yesWeight = yesWeightOf (voteOnMilestone db mid vid b w).2.votes mid ∧
      r.noWeight = noWeightOf (voteOnMilestone db mid vid b w).2.votes mid) ∧
    (∀ (st : RawStorage) (mid : String) (b : Bool) (w : ℚ) (r : CastResult),
      (castVote st mid b w).1 = .ok r →
      r.isApproved = approvedCalc r.votes.yes r.votes.no ∧
      r.yesPercent = yesPercentCalc r.votes.yes r.votes.no) := by
  refine ⟨?_, ?_, ?_⟩
  · intro w
    unfold approvedCalc
    by_cases h : (0 : ℚ) < w + w
    · have hw : w ≠ 0 := by
        intro h0
        rw [h0] at h
        norm_num at h
      have hhalf : w / (w + w) = 1/2 := by
        rw [← two_mul, div_eq_div_iff (by positivity) (by norm_num)]
        ring
      simp [hhalf]
    · simp [h]
  · intro db mid vid b w r hok
    obtain ⟨h1, h2, h3, h4⟩ := voteOnMilestone_ok_guards db mid vid b w r hok
    have hspec := voteOnMilestone_success_spec db mid vid b w h1 h2 h3 h4
    have hr := hspec.1
    rw [hok] at hr
    have hr2 := Except.ok.inj hr
    subst hr2
    refine ⟨rfl, rfl, rfl, ?_, ?_⟩ <;> rw [hspec.2.1]
  · intro st mid b w r hok
    by_cases hlt : loadFromStorage st.tokenBalance 0 < w
    · simp [castVote, if_pos hlt] at hok
    · simp only [castVote, if_neg hlt] at hok
      have h5 := Except.ok.inj hok
      subst h5
      exact ⟨rfl, rfl⟩

/-- C5 witness: Scenario B — after a 60-weight YES vote, a 40-weight NO vote
returns total 100, yesPercent 60 and approved = true, matching the decision
formula on the recomputed tallies. -/
theorem C5_witness :
    (voteOnMilestone dbP "m1" "b" false 40).1 = .ok rB5 ∧
    (rB5.milestoneApproved = approvedCalc (rB5.yesWeight : ℚ) (rB5.noWeight : ℚ) ∧
     rB5.total = rB5.yesWeight + rB5.noWeight ∧
     rB5.yesPercent = yesPercentCalc (rB5.yesWeight : ℚ) (rB5.noWeight : ℚ) ∧
     rB5.yesWeight = yesWeightOf (voteOnMilestone dbP "m1" "b" false 40).2.votes "m1" ∧
     rB5.noWeight = noWeightOf (voteOnMilestone dbP "m1" "b" false 40).2.votes "m1") := by
  have hok : (voteOnMilestone dbP "m1" "b" false 40).1 = .ok rB5 := by
    simp only [voteOnMilestone, dbP, rB5, hasVotePair, yesWeightOf, noWeightOf,
      approvedCalc, yesPercentCalc, jsRound, updateMilestoneStatus, validStatuses]
    norm_num
    simp
  exact ⟨hok, C5_approval_decision.2.1 dbP "m1" "b" false 40 rB5 hok⟩

/-- C8: `getProjectFundingTotal` equals the sum of the amounts of the
funding-type transactions of the project (release and refund rows are excluded)
whenever all amounts are multiples of 10^-8 — the precision of the
NUMERIC(18,8) amount column — and its value is invariant under any
reordering (interleaving) of the ledger. -/
theorem C8_funding_total (txs : List Txn) (pid : String) (hpid : ¬ pid = "")
    (hdec : ∀ t ∈ txs, ∃ k : ℤ, t.amount = (k : ℚ) / 100000000) :
    getProjectFundingTotal txs pid = .ok (specFundingSum txs pid) ∧
    ∀ txs2 : List Txn, txs.Perm txs2 →
      getProjectFundingTotal txs2 pid = getProjectFundingTotal txs pid := by
  constructor
  · simp only [getProjectFundingTotal, if_neg hpid, specFundingSum]
    have hfe : txs.filter (fun t =>
        decide (t.projectId = pid) && decide (t.type = TxType.funding)) =
        txs.filter (fun t => decide (t.projectId = pid ∧ t.type = TxType.funding)) := by
      apply List.filter_congr
      intro t _
      exact (Bool.decide_and _ _).symm
    rw [hfe]
    obtain ⟨k, hk⟩ := sum_dyadic
      ((txs.filter (fun t =>
        decide (t.projectId = pid ∧ t.type = TxType.funding))).map Txn.amount)
      (by
        intro x hx
        simp only [List.mem_map, List.mem_filter] at hx
        obtain ⟨t, ⟨htl, _⟩, rfl⟩ := hx
        exact hdec t htl)
    rw [hk, round8_dyadic]
  · intro txs2 hperm
    simp only [getProjectFundingTotal, if_neg hpid]
    have hs : ((txs2.filter (fun t =>
        decide (t.projectId = pid) && decide (t.type = TxType.funding))).map
          Txn.amount).sum =
        ((txs.filter (fun t =>
        decide (t.projectId = pid) && decide (t.type = TxType.funding))).map
          Txn.amount).sum :=
      List.Perm.sum_eq ((hperm.symm.filter _).map _)
    rw [hs]

/-- C8 witness: on a concrete ledger, the total for project p1 sums exactly
its two funding rows (the release row is excluded, as is the other
funding row of the other project), and reversing the ledger gives the same total. -/
theorem C8_witness :
    getProjectFundingTotal txsC "p1" = .ok (specFundingSum txsC "p1") ∧
    getProjectFundingTotal txsC.reverse "p1" = getProjectFundingTotal txsC "p1" := by
  have hdec : ∀ t ∈ txsC, ∃ k : ℤ, t.amount = (k : ℚ) / 100000000 := by
    intro t ht
    simp only [txsC, List.mem_cons, List.not_mem_nil, or_false] at ht
    rcases ht with rfl | rfl | rfl | rfl
    · exact ⟨100000, by norm_num⟩
    · exact ⟨200000, by norm_num⟩
    · exact ⟨500000, by norm_num⟩
    · exact ⟨300000, by norm_num⟩
  have h := C8_funding_total txsC "p1" (by simp) hdec
  exact ⟨h.1, h.2 txsC.reverse (List.reverse_perm txsC).symm⟩

/-- C6 counterexample: `releaseMilestoneFunds` consults no milestone status
at all. With milestone `m1` still in `voting` status and 1 BCH tracked as
locked, releasing 0.5 BCH succeeds instead of failing with `NotApproved`,
refuting the claim that a release on a non-approved milestone fails. -/
theorem C6_counterexample :
    dbVotingC.milestoneStatus "m1" = "voting" ∧
    (releaseMilestoneFunds stLocked1 (1/2) "addr1" (.ok "tx9")).1 = .ok "tx9" := by
  constructor
  · rfl
  · norm_num [releaseMilestoneFunds, stLocked1, loadFromStorage]

/-- C6 amended: `releaseMilestoneFunds` performs no status check and no
allocated-amount check; it fails (with `InsufficientLockedFunds`) exactly
when the requested amount exceeds the tracked locked balance plus the
0.0001 fee tolerance, and on that path no send is attempted and the storage
is unchanged; otherwise the send is attempted and on success the locked
balance becomes `max 0 (locked - amount)`. -/
theorem C6_amended_release_checks (st : RawStorage) (a : ℚ) (addr tx : String) :
    (loadFromStorage st.lockedAmount 0 + 1/10000 < a →
      releaseMilestoneFunds st a addr (.ok tx) =
        (.error .insufficientLockedFunds, st, [])) ∧
    (¬ loadFromStorage st.lockedAmount 0 + 1/10000 < a →
      (releaseMilestoneFunds st a addr (.ok tx)).1 = .ok tx ∧
      getLockedAmount (releaseMilestoneFunds st a addr (.ok tx)).2.1 =
        max 0 (loadFromStorage st.lockedAmount 0 - a) ∧
      (releaseMilestoneFunds st a addr (.ok tx)).2.2 = [(addr, a)]) := by
  constructor
  · intro h
    simp only [releaseMilestoneFunds, if_pos h]
  · intro h
    refine ⟨?_, ?_, ?_⟩ <;>
      (simp only [releaseMilestoneFunds, if_neg h]
       try simp [getLockedAmount, loadFromStorage])

/-- C6 witness for the amended claim: with nothing locked, releasing 1 BCH
fails with `InsufficientLockedFunds` before any send; with 1 BCH locked,
releasing 0.25 BCH succeeds and leaves 0.75 BCH locked. -/
theorem C6_witness :
    releaseMilestoneFunds stEmpty 1 "addr1" (.ok "tx1") =
      (.error .insufficientLockedFunds, stEmpty, []) ∧
    getLockedAmount (releaseMilestoneFunds stLocked1 (1/4) "addr1" (.ok "tx2")).2.1 =
      max 0 (loadFromStorage stLocked1.lockedAmount 0 - 1/4) := by
  constructor
  · exact (C6_amended_release_checks stEmpty 1 "addr1" "tx1").1
      (by norm_num [stEmpty, loadFromStorage])
  · exact ((C6_amended_release_checks stLocked1 (1/4) "addr1" "tx2").2
      (by norm_num [stLocked1, loadFromStorage])).2.1

/-- C1: the store-backed vote path keeps at most one vote per
(milestone, voter) pair, and a second vote with the same pair — otherwise
valid — fails with `DuplicateVote` (the UNIQUE-constraint violation) while
leaving the whole state, in particular the governance token
balance, unchanged. -/
theorem C1_duplicate_vote_rejected (sys : SysState) (mid vid : String)
    (b : Bool) (w : ℤ) :
    (onePerPair sys.db.votes →
      onePerPair (castVoteDB sys mid vid b w).2.db.votes) ∧
    (hasVotePair sys.db.votes mid vid = true → ¬ mid = "" → ¬ vid = "" →
      ¬ w < 1 →
      castVoteDB sys mid vid b w = (.error .duplicateVote, sys) ∧
      getTokenBalance (castVoteDB sys mid vid b w).2.loc =
        getTokenBalance sys.loc) := by
  constructor
  · intro hp
    by_cases h1 : mid = ""
    · simpa [castVoteDB, voteOnMilestone, h1] using hp
    by_cases h2 : vid = ""
    · simpa [castVoteDB, voteOnMilestone, h1, h2] using hp
    by_cases h3 : w < 1
    · simpa [castVoteDB, voteOnMilestone, h1, h2, h3] using hp
    by_cases h4 : hasVotePair sys.db.votes mid vid
    · simpa [castVoteDB, voteOnMilestone, h1, h2, h3, h4] using hp
    have h4f : hasVotePair sys.db.votes mid vid = false := by simpa using h4
    have hspec := voteOnMilestone_success_spec sys.db mid vid b w h1 h2 h3 h4f
    have hv : (castVoteDB sys mid vid b w).2.db.votes =
        sys.db.votes ++ [⟨mid, vid, b, w⟩] := by
      simpa [castVoteDB] using hspec.2.1
    rw [hv]
    unfold onePerPair at hp ⊢
    rw [List.pairwise_append]
    refine ⟨hp, by simp, ?_⟩
    intro a ha y hy
    simp only [List.mem_singleton] at hy
    subst hy
    rintro ⟨hm, hv2⟩
    have hT : hasVotePair sys.db.votes mid vid = true := by
      unfold hasVotePair
      rw [List.any_eq_true]
      exact ⟨a, ha, by simp_all⟩
    rw [h4f] at hT
    exact Bool.false_ne_true hT
  · intro hdup hmid hvid hw
    have hv : voteOnMilestone sys.db mid vid b w =
        (.error .duplicateVote, sys.db) := by
      simp [voteOnMilestone, hmid, hvid, hw, hdup]
    constructor
    · simp [castVoteDB, hv]
    · simp [castVoteDB, hv]

/-- C1 witness: Scenario D — the store already holds the (m1, v1) vote, so a
second, otherwise valid, vote by v1 on m1 fails with `DuplicateVote` and the
state (including the 50-token balance) is unchanged. -/
theorem C1_witness :
    castVoteDB sysDup "m1" "v1" false 1 = (.error .duplicateVote, sysDup) ∧
    getTokenBalance (castVoteDB sysDup "m1" "v1" false 1).2.loc =
      getTokenBalance sysDup.loc :=
  (C1_duplicate_vote_rejected sysDup "m1" "v1" false 1).2
    (by simp [sysDup, dbDup, hasVotePair]) (by simp) (by simp) (by norm_num)

/-- C2 counterexample: on the store-backed voting path
(`castVoteDB` → `voteOnMilestone`) a successful vote insert deducts nothing
from the governance token balance. Starting with a 10-token balance, a
5-weight vote inserts successfully yet the balance stays 10 instead of
dropping to 5, refuting the claim that a successful insert deducts exactly
the weight. -/
theorem C2_counterexample :
    (castVoteDB sysFresh "m1" "v1" true 5).1 =
      .ok { voteRecord := ⟨"m1", "v1", true, 5⟩, milestoneApproved := true
            yesPercent := 100, yesWeight := 5, noWeight := 0, total := 5 } ∧
    getTokenBalance (castVoteDB sysFresh "m1" "v1" true 5).2.loc = 10 ∧
    ¬ ((10 : ℚ) = 10 - 5) := by
  refine ⟨?_, ?_, by norm_num⟩
  · simp only [castVoteDB, sysFresh, db0C, voteOnMilestone, hasVotePair,
      yesWeightOf, noWeightOf, approvedCalc, yesPercentCalc, jsRound,
      updateMilestoneStatus, validStatuses]
    norm_num
    simp
  · simp only [castVoteDB]
    simp [sysFresh, stBal10, getTokenBalance, loadFromStorage]

/-- C2 amended: the store-backed vote (`castVoteDB`, hence `voteOnMilestone`)
never touches the governance token balance, on success and failure alike —
the only token spend lives in the browser-local `castVote`, which deducts
exactly `weight` before recording the vote on its success path (where the
vote-record write cannot fail) and deducts nothing when the balance check
fails. -/
theorem C2_amended_no_spend_on_db_path (sys : SysState) (mid vid : String)
    (b : Bool) (w : ℤ) (st : RawStorage) (mid2 : String) (b2 : Bool) (w2 : ℚ) :
    (castVoteDB sys mid vid b w).2.loc = sys.loc ∧
    (loadFromStorage st.tokenBalance 0 < w2 →
      (castVote st mid2 b2 w2).2 = st) ∧
    (w2 ≤ loadFromStorage st.tokenBalance 0 →
      getTokenBalance (castVote st mid2 b2 w2).2 =
        loadFromStorage st.tokenBalance 0 - w2) := by
  refine ⟨rfl, ?_, ?_⟩
  · intro h
    simp [castVote, h]
  · intro h
    have h2 : ¬ loadFromStorage st.tokenBalance 0 < w2 := not_lt.mpr h
    simp only [castVote, if_neg h2]
    simp [getTokenBalance, loadFromStorage]

/-- C2 witness for the amended claim: a store-backed vote leaves the local
balance slot untouched, and a local `castVote` of 30 tokens against a
50-token balance stores exactly 20. -/
theorem C2_witness :
    (castVoteDB sysFresh "m2" "v2" false 3).2.loc = sysFresh.loc ∧
    ((30 : ℚ) ≤ loadFromStorage st50.tokenBalance 0 ∧
      getTokenBalance (castVote st50 "m1" true 30).2 =
        loadFromStorage st50.tokenBalance 0 - 30) := by
  have hle : (30 : ℚ) ≤ loadFromStorage st50.tokenBalance 0 := by
    norm_num [st50, loadFromStorage]
  exact ⟨(C2_amended_no_spend_on_db_path sysFresh "m2" "v2" false 3 st50 "m1" true 30).1,
    hle, (C2_amended_no_spend_on_db_path sysFresh "m2" "v2" false 3 st50 "m1" true 30).2.2 hle⟩

/-- C3 counterexample: approval is not latched. A 1-weight YES vote by
`alice` moves milestone m1 to `approved`; a later valid 3-weight NO vote by
`bob` dilutes the yes share to 25% and moves the status back to `voting`,
refuting the claim that no valid sequence of operations returns an approved
milestone to `voting`. -/
theorem C3_counterexample :
    (voteOnMilestone db0C "m1" "alice" true 1).2.milestoneStatus "m1" =
      "approved" ∧
    (voteOnMilestone (voteOnMilestone db0C "m1" "alice" true 1).2
        "m1" "bob" false 3).2.milestoneStatus "m1" = "voting" := by
  have h1 : (voteOnMilestone db0C "m1" "alice" true 1).2 = db1C := by
    simp only [voteOnMilestone, db0C, db1C, hasVotePair, yesWeightOf,
      noWeightOf, approvedCalc, yesPercentCalc, jsRound,
      updateMilestoneStatus, validStatuses]
    norm_num
    simp
  constructor
  · rw [h1]
    simp [db1C]
  · rw [h1]
    simp only [voteOnMilestone, db1C, hasVotePair, yesWeightOf, noWeightOf,
      approvedCalc, yesPercentCalc, jsRound, updateMilestoneStatus,
      validStatuses]
    norm_num
    simp

/-- C3 amended: the milestone status is recomputed live on every vote —
after any successful `voteOnMilestone` (on a store whose votes all have
weight at least 1) the status of the milestone equals `approved` when the fresh
tally is a strict majority and `voting` otherwise. In particular a later
vote that dilutes the yes share below the strict majority moves an approved
milestone back to `voting`; approval is not a one-way latch. -/
theorem C3_amended_live_recompute (db : DB) (mid vid : String) (b : Bool)
    (w : ℤ) (r : VoteResult) (hW : ∀ v ∈ db.votes, 1 ≤ v.votingPower)
    (hok : (voteOnMilestone db mid vid b w).1 = .ok r) :
    (voteOnMilestone db mid vid b w).2.milestoneStatus mid =
      if r.milestoneApproved = true then "approved" else "voting" := by
  obtain ⟨h1, h2, h3, h4⟩ := voteOnMilestone_ok_guards db mid vid b w r hok
  have hspec := voteOnMilestone_success_spec db mid vid b w h1 h2 h3 h4
  have hr : r =
      { voteRecord := ⟨mid, vid, b, w⟩
        milestoneApproved :=
          approvedCalc (yesWeightOf (db.votes ++ [⟨mid, vid, b, w⟩]) mid : ℚ)
            (noWeightOf (db.votes ++ [⟨mid, vid, b, w⟩]) mid : ℚ)
        yesPercent :=
          yesPercentCalc (yesWeightOf (db.votes ++ [⟨mid, vid, b, w⟩]) mid : ℚ)
            (noWeightOf (db.votes ++ [⟨mid, vid, b, w⟩]) mid : ℚ)
        yesWeight := yesWeightOf (db.votes ++ [⟨mid, vid, b, w⟩]) mid
        noWeight := noWeightOf (db.votes ++ [⟨mid, vid, b, w⟩]) mid
        total := yesWeightOf (db.votes ++ [⟨mid, vid, b, w⟩]) mid +
          noWeightOf (db.votes ++ [⟨mid, vid, b, w⟩]) mid } := by
    have := hspec.1
    rw [hok] at this
    exact Except.ok.inj this
  have hpos : 0 < yesWeightOf (db.votes ++ [⟨mid, vid, b, w⟩]) mid +
      noWeightOf (db.votes ++ [⟨mid, vid, b, w⟩]) mid := by
    refine total_pos_of_mem _ mid ⟨mid, vid, b, w⟩ ?_ (by simp) rfl
    intro v hv
    rcases List.mem_append.mp hv with h | h
    · exact hW v h
    · simp only [List.mem_singleton] at h
      subst h
      show (1 : ℤ) ≤ w
      omega
  by_cases happ : approvedCalc
      (yesWeightOf (db.votes ++ [⟨mid, vid, b, w⟩]) mid : ℚ)
      (noWeightOf (db.votes ++ [⟨mid, vid, b, w⟩]) mid : ℚ)
  · rw [hspec.2.2.1 happ, hr]
    simp [happ]
  · have happf : approvedCalc
        (yesWeightOf (db.votes ++ [⟨mid, vid, b, w⟩]) mid : ℚ)
        (noWeightOf (db.votes ++ [⟨mid, vid, b, w⟩]) mid : ℚ) = false := by
      simpa using happ
    rw [hspec.2.2.2 happf hpos, hr]
    simp [happf]

/-- C3 witness for the amended claim: the first 1-weight YES vote on a fresh
store yields a strict majority, so the status equals `approved` as dictated
by the returned approval flag. -/
theorem C3_witness :
    (voteOnMilestone db0C "m1" "alice" true 1).2.milestoneStatus "m1" =
      if (⟨⟨"m1", "alice", true, 1⟩, true, 100, 1, 0, 1⟩ :
          VoteResult).milestoneApproved = true then "approved" else "voting" := by
  refine C3_amended_live_recompute db0C "m1" "alice" true 1 _ (by simp [db0C]) ?_
  simp only [voteOnMilestone, db0C, hasVotePair, yesWeightOf, noWeightOf,
    approvedCalc, yesPercentCalc, jsRound, updateMilestoneStatus, validStatuses]
  norm_num
  simp

/-- C4 counterexample: the source computes
`Math.floor((amountBch / 0.001) * 100)`, not
`Math.floor(amountBch / 0.001) * 100` as claimed. At a contribution of
0.0015 the code mints 150 tokens while the claimed formula yields 100. -/
theorem C4_counterexample :
    (fundMilestoneContract stEmpty (3/2000) "tx1").1 =
      .ok { tokenAmount := 150, newTokenBalance := 150, simulatedTxId := "tx1" } ∧
    (⌊((3 : ℚ)/2000) / (1/1000)⌋ * 100 : ℤ) = 100 ∧ ¬ ((150 : ℤ) = 100) := by
  refine ⟨?_, by norm_num, by norm_num⟩
  have hm : mintedTokens (3/2000) = 150 := by norm_num [mintedTokens]
  simp only [fundMilestoneContract, hm]
  norm_num [stEmpty, loadFromStorage]

/-- C4 amended: `fundMilestoneContract` mints
`floor((contributedAmount / 0.001) * 100)` governance units, fails with
`InvalidAmount` (leaving the storage unchanged) exactly when that value is
below 1, and adds the minted amount to the stored balance otherwise; a
0.001 contribution mints exactly 100 units. -/
theorem C4_amended_mint_formula (st : RawStorage) (a : ℚ) (tx : String) :
    (mintedTokens a < 1 →
      fundMilestoneContract st a tx = (.error .invalidAmount, st)) ∧
    (1 ≤ mintedTokens a →
      (fundMilestoneContract st a tx).1 =
        .ok { tokenAmount := mintedTokens a
              newTokenBalance := getTokenBalance st + (mintedTokens a : ℚ)
              simulatedTxId := tx } ∧
      getTokenBalance (fundMilestoneContract st a tx).2 =
        getTokenBalance st + (mintedTokens a : ℚ)) ∧
    mintedTokens (1/1000) = 100 := by
  refine ⟨?_, ?_, by norm_num [mintedTokens]⟩
  · intro h
    simp [fundMilestoneContract, h]
  · intro h
    have h2 : ¬ mintedTokens a < 1 := not_lt.mpr h
    constructor <;> simp only [fundMilestoneContract, if_neg h2] <;>
      simp [getTokenBalance, loadFromStorage]

/-- C4 witness for the amended claim: Scenario A — a 0.001 contribution
mints exactly 100 governance units and the stored balance becomes 100. -/
theorem C4_witness :
    (1 : ℤ) ≤ mintedTokens (1/1000) ∧
    (fundMilestoneContract stEmpty (1/1000) "tx1").1 =
      .ok { tokenAmount := mintedTokens (1/1000)
            newTokenBalance := getTokenBalance stEmpty + (mintedTokens (1/1000) : ℚ)
            simulatedTxId := "tx1" } := by
  have h1 : (1 : ℤ) ≤ mintedTokens (1/1000) := by norm_num [mintedTokens]
  exact ⟨h1, ((C4_amended_mint_formula stEmpty (1/1000) "tx1").2.1 h1).1⟩

/-- C10 witness: on empty storage every getter returns its safe default. -/
theorem C10_witness :
    getTokenBalance stEmpty = 0 ∧ getLockedAmount stEmpty = 0 ∧
    getMilestoneVotes stEmpty "m1" = ⟨0, 0⟩ := by
  refine ⟨(C10_getters_safe_defaults stEmpty "m1").1 (Or.inl rfl),
    (C10_getters_safe_defaults stEmpty "m1").2.1 (Or.inl rfl),
    (C10_getters_safe_defaults stEmpty "m1").2.2 ?_⟩
  simp [stEmpty, loadFromStorage, getKey]

end Milestara
